import Mathlib

/-!
Shallow embedding of the `powerglove` MOS 6502 CPU core (Rust) in Lean 4.

Machine integers are modelled as `Nat` with explicit reduction modulo `2^8`
or `2^16`.  Rust wrapping operations (`wrapping_add`, `wrapping_sub`) become
the `wrapping_*` helpers below.  Plain Rust `+` / `-` / `+=` / `-=` on `u8`
and `u16` are overflow-checked (a debug-build panic on overflow), so every
source function that uses them is embedded as an `Option`-returning function:
`none` models the panic branch.  Stateful Rust methods become explicit
state-passing functions on the `CPU` structure; instruction and addressing
handlers return the new state together with their extra-cycle hint.
-/

namespace Powerglove

/-- Rust `u8::wrapping_add` on byte values. -/
def wrapping_add8 (a b : Nat) : Nat := (a % 256 + b % 256) % 256

/-- Rust `u8::wrapping_sub` on byte values. -/
def wrapping_sub8 (a b : Nat) : Nat := (a % 256 + 256 - b % 256) % 256

/-- Rust `u16::wrapping_add` on 16-bit values. -/
def wrapping_add16 (a b : Nat) : Nat := (a % 65536 + b % 65536) % 65536

/-- Rust `u16::wrapping_sub` on 16-bit values. -/
def wrapping_sub16 (a b : Nat) : Nat := (a % 65536 + 65536 - b % 65536) % 65536

/-- Rust `+` on `u8`: overflow is a panic (debug assertions), modelled as `none`. -/
def checked_add8 (a b : Nat) : Option Nat :=
  if a % 256 + b % 256 ≤ 255 then some (a % 256 + b % 256) else none

/-- Rust `-` on `u8`: underflow is a panic (debug assertions), modelled as `none`. -/
def checked_sub8 (a b : Nat) : Option Nat :=
  if b % 256 ≤ a % 256 then some (a % 256 - b % 256) else none

/-- Rust `+` on `u16`: overflow is a panic (debug assertions), modelled as `none`. -/
def checked_add16 (a b : Nat) : Option Nat :=
  if a % 65536 + b % 65536 ≤ 65535 then some (a % 65536 + b % 65536) else none

/-- Rust `u16::from_le_bytes [lo, hi]`. -/
def u16_from_le_bytes (lo hi : Nat) : Nat := lo % 256 + 256 * (hi % 256)

/-- Rust `u16::from_be_bytes [b0, b1]`. -/
def u16_from_be_bytes (b0 b1 : Nat) : Nat := 256 * (b0 % 256) + b1 % 256

/-! Status register: the `bitflags` byte from `src/cpu/mod.rs`, kept as the
packed `Nat` byte, with the eight single-bit flag constants. -/

namespace StatusFlags

/-- Carry flag. -/
def C : Nat := 1
/-- Zero flag. -/
def Z : Nat := 2
/-- Disable interrupts flag. -/
def I : Nat := 4
/-- Decimal mode flag. -/
def D : Nat := 8
/-- Break flag. -/
def B : Nat := 16
/-- Unused flag. -/
def U : Nat := 32
/-- Overflow flag. -/
def V : Nat := 64
/-- Negative flag. -/
def N : Nat := 128

end StatusFlags

/-- The `bitflags` `contains` test: `self.bits & flag.bits == flag.bits`. -/
def flag_contains (bits flag : Nat) : Bool := bits &&& flag == flag

/-- The `bitflags` `set`: insert (`bits |= flag`) when the value is true,
remove (`bits &= !flag`, complement taken in 8 bits) when it is false. -/
def flag_set (bits flag : Nat) (value : Prop) [Decidable value] : Nat :=
  if value then bits % 256 ||| flag else bits % 256 &&& (255 ^^^ flag)

/-! The memory bus from `src/bus.rs`: a flat 64 KiB byte array, embedded as a
function from addresses to bytes; reads and writes reduce the address modulo
`2^16` and the stored data modulo `2^8`, matching the `u16`/`u8` types. -/

structure Bus where
  ram : Nat → Nat

/-- Fresh bus: `[0x0; RAM_SIZE]`, all cells zero. -/
def Bus.new : Bus := ⟨fun _ => 0⟩

/-- Byte read from the 64 KiB array (every 16-bit address is in range). -/
def Bus.read (b : Bus) (address : Nat) : Nat := b.ram (address % 65536) % 256

/-- Byte write into the 64 KiB array. -/
def Bus.write (b : Bus) (address data : Nat) : Bus :=
  ⟨fun a => if a = address % 65536 then data % 256 else b.ram a⟩

/-- Base location of the stack. -/
def STACK_BASE : Nat := 0x0100
/-- Location of the reset vector. -/
def PC_POINTER : Nat := 0xFFFC
/-- Location of the IRQ/BRK vector. -/
def IRQ_POINTER : Nat := 0xFFFE
/-- Location of the NMI vector. -/
def NMI_POINTER : Nat := 0xFFFA

/-- The CPU aggregate from `src/cpu/mod.rs`: registers, the packed status
byte, the execution-scratch fields and the owned memory bus. -/
structure CPU where
  bus : Bus
  status : Nat
  a : Nat
  x : Nat
  y : Nat
  sp : Nat
  pc : Nat
  fetched : Nat
  addr_abs : Nat
  addr_rel : Nat
  cycles_remaining : Nat
  opcode : Nat

/-- The constructor `CPU::new()`: zeroed registers over a zeroed bus. -/
def CPU.new : CPU :=
  { bus := Bus.new, status := 0, a := 0, x := 0, y := 0, sp := 0, pc := 0,
    fetched := 0, addr_abs := 0, addr_rel := 0, cycles_remaining := 0, opcode := 0 }

/-- Proxy of `CPU::read` to the bus. -/
def CPU.read (c : CPU) (address : Nat) : Nat := c.bus.read address

/-- Proxy of `CPU::write` to the bus. -/
def CPU.write (c : CPU) (address data : Nat) : CPU :=
  { c with bus := c.bus.write address data }

/-- Mnemonics of the 6502 instruction set, from `src/cpu/instructions.rs`. -/
inductive Mnemonic where
  | LDA | LDX | LDY | STA | STX | STY | TAX | TAY | TSX | TXA | TXS | TYA
  | ADC | DEC | DEX | DEY | INC | INX | INY | SBC
  | AND | ASL | BIT | EOR | LSR | ORA | ROL | ROR
  | BCC | BCS | BEQ | BMI | BNE | BPL | BVC | BVS
  | JMP | JSR | RTI | RTS
  | CLC | CLD | CLI | CLV | CMP | CPX | CPY | SEC | SED | SEI
  | PHA | PHP | PLA | PLP
  | BRK | NOP
  | XXX
  deriving DecidableEq

/-- The twelve addressing modes (plus `ACC`), from `src/cpu/instructions.rs`. -/
inductive AddressingMode where
  | ZP0 | ZPX | ZPY | ABS | ABX | ABY | IND | IMP | ACC | IMM | REL | IZX | IZY
  deriving DecidableEq

/-- One entry of the opcode table.  The source also binds the two handler
function pointers (`op_exec`, `mode_exec`); those bindings are determined by
the `mnemonic` and `mode` tags, which is what this embedding records. -/
structure Instruction where
  mnemonic : Mnemonic
  mode : AddressingMode
  cycles : Nat

/-- Opcode-table rows 0x00..0x1F of `INSTRUCTION_MAP` from
`src/cpu/instructions.rs`. -/
def INSTRUCTION_MAP_0 : List Instruction := [
  ⟨.BRK, .IMM, 7⟩,
  ⟨.ORA, .IZX, 6⟩,
  ⟨.XXX, .IMP, 2⟩,
  ⟨.XXX, .IMP, 8⟩,
  ⟨.NOP, .IMP, 3⟩,
  ⟨.ORA, .ZP0, 3⟩,
  ⟨.ASL, .ZP0, 5⟩,
  ⟨.XXX, .IMP, 5⟩,
  ⟨.PHP, .IMP, 3⟩,
  ⟨.ORA, .IMM, 2⟩,
  ⟨.ASL, .IMP, 2⟩,
  ⟨.XXX, .IMP, 2⟩,
  ⟨.NOP, .IMP, 4⟩,
  ⟨.ORA, .ABS, 4⟩,
  ⟨.ASL, .ABS, 6⟩,
  ⟨.XXX, .IMP, 6⟩,
  ⟨.BPL, .REL, 2⟩,
  ⟨.ORA, .IZY, 5⟩,
  ⟨.XXX, .IMP, 2⟩,
  ⟨.XXX, .IMP, 8⟩,
  ⟨.NOP, .IMP, 4⟩,
  ⟨.ORA, .ZPX, 4⟩,
  ⟨.ASL, .ZPX, 6⟩,
  ⟨.XXX, .IMP, 6⟩,
  ⟨.CLC, .IMP, 2⟩,
  ⟨.ORA, .ABY, 4⟩,
  ⟨.NOP, .IMP, 2⟩,
  ⟨.XXX, .IMP, 7⟩,
  ⟨.NOP, .IMP, 4⟩,
  ⟨.ORA, .ABX, 4⟩,
  ⟨.ASL, .ABX, 7⟩,
  ⟨.XXX, .IMP, 7⟩
]

/-- Opcode-table rows 0x20..0x3F of `INSTRUCTION_MAP` from
`src/cpu/instructions.rs`. -/
def INSTRUCTION_MAP_1 : List Instruction := [
  ⟨.JSR, .ABS, 6⟩,
  ⟨.AND, .IZX, 6⟩,
  ⟨.XXX, .IMP, 2⟩,
  ⟨.XXX, .IMP, 8⟩,
  ⟨.BIT, .ZP0, 3⟩,
  ⟨.AND, .ZP0, 3⟩,
  ⟨.ROL, .ZP0, 5⟩,
  ⟨.XXX, .IMP, 5⟩,
  ⟨.PLP, .IMP, 4⟩,
  ⟨.AND, .IMM, 2⟩,
  ⟨.ROL, .IMP, 2⟩,
  ⟨.XXX, .IMP, 2⟩,
  ⟨.BIT, .ABS, 4⟩,
  ⟨.AND, .ABS, 4⟩,
  ⟨.ROL, .ABS, 6⟩,
  ⟨.XXX, .IMP, 6⟩,
  ⟨.BMI, .REL, 2⟩,
  ⟨.AND, .IZY, 5⟩,
  ⟨.XXX, .IMP, 2⟩,
  ⟨.XXX, .IMP, 8⟩,
  ⟨.NOP, .IMP, 4⟩,
  ⟨.AND, .ZPX, 4⟩,
  ⟨.ROL, .ZPX, 6⟩,
  ⟨.XXX, .IMP, 6⟩,
  ⟨.SEC, .IMP, 2⟩,
  ⟨.AND, .ABY, 4⟩,
  ⟨.NOP, .IMP, 2⟩,
  ⟨.XXX, .IMP, 7⟩,
  ⟨.NOP, .IMP, 4⟩,
  ⟨.AND, .ABX, 4⟩,
  ⟨.ROL, .ABX, 7⟩,
  ⟨.XXX, .IMP, 7⟩
]

/-- Opcode-table rows 0x40..0x5F of `INSTRUCTION_MAP` from
`src/cpu/instructions.rs`. -/
def INSTRUCTION_MAP_2 : List Instruction := [
  ⟨.RTI, .IMP, 6⟩,
  ⟨.EOR, .IZX, 6⟩,
  ⟨.XXX, .IMP, 2⟩,
  ⟨.XXX, .IMP, 8⟩,
  ⟨.NOP, .IMP, 3⟩,
  ⟨.EOR, .ZP0, 3⟩,
  ⟨.LSR, .ZP0, 5⟩,
  ⟨.XXX, .IMP, 5⟩,
  ⟨.PHA, .IMP, 3⟩,
  ⟨.EOR, .IMM, 2⟩,
  ⟨.LSR, .IMP, 2⟩,
  ⟨.XXX, .IMP, 2⟩,
  ⟨.JMP, .ABS, 3⟩,
  ⟨.EOR, .ABS, 4⟩,
  ⟨.LSR, .ABS, 6⟩,
  ⟨.XXX, .IMP, 6⟩,
  ⟨.BVC, .REL, 2⟩,
  ⟨.EOR, .IZY, 5⟩,
  ⟨.XXX, .IMP, 2⟩,
  ⟨.XXX, .IMP, 8⟩,
  ⟨.NOP, .IMP, 4⟩,
  ⟨.EOR, .ZPX, 4⟩,
  ⟨.LSR, .ZPX, 6⟩,
  ⟨.XXX, .IMP, 6⟩,
  ⟨.CLI, .IMP, 2⟩,
  ⟨.EOR, .ABY, 4⟩,
  ⟨.NOP, .IMP, 2⟩,
  ⟨.XXX, .IMP, 7⟩,
  ⟨.NOP, .IMP, 4⟩,
  ⟨.EOR, .ABX, 4⟩,
  ⟨.LSR, .ABX, 7⟩,
  ⟨.XXX, .IMP, 7⟩
]

/-- Opcode-table rows 0x60..0x7F of `INSTRUCTION_MAP` from
`src/cpu/instructions.rs`. -/
def INSTRUCTION_MAP_3 : List Instruction := [
  ⟨.RTS, .IMP, 6⟩,
  ⟨.ADC, .IZX, 6⟩,
  ⟨.XXX, .IMP, 2⟩,
  ⟨.XXX, .IMP, 8⟩,
  ⟨.NOP, .IMP, 3⟩,
  ⟨.ADC, .ZP0, 3⟩,
  ⟨.ROR, .ZP0, 5⟩,
  ⟨.XXX, .IMP, 5⟩,
  ⟨.PLA, .IMP, 4⟩,
  ⟨.ADC, .IMM, 2⟩,
  ⟨.ROR, .IMP, 2⟩,
  ⟨.XXX, .IMP, 2⟩,
  ⟨.JMP, .IND, 5⟩,
  ⟨.ADC, .ABS, 4⟩,
  ⟨.ROR, .ABS, 6⟩,
  ⟨.XXX, .IMP, 6⟩,
  ⟨.BVS, .REL, 2⟩,
  ⟨.ADC, .IZY, 5⟩,
  ⟨.XXX, .IMP, 2⟩,
  ⟨.XXX, .IMP, 8⟩,
  ⟨.NOP, .IMP, 4⟩,
  ⟨.ADC, .ZPX, 4⟩,
  ⟨.ROR, .ZPX, 6⟩,
  ⟨.XXX, .IMP, 6⟩,
  ⟨.SEI, .IMP, 2⟩,
  ⟨.ADC, .ABY, 4⟩,
  ⟨.NOP, .IMP, 2⟩,
  ⟨.XXX, .IMP, 7⟩,
  ⟨.NOP, .IMP, 4⟩,
  ⟨.ADC, .ABX, 4⟩,
  ⟨.ROR, .ABX, 7⟩,
  ⟨.XXX, .IMP, 7⟩
]

/-- Opcode-table rows 0x80..0x9F of `INSTRUCTION_MAP` from
`src/cpu/instructions.rs`. -/
def INSTRUCTION_MAP_4 : List Instruction := [
  ⟨.NOP, .IMP, 2⟩,
  ⟨.STA, .IZX, 6⟩,
  ⟨.NOP, .IMP, 2⟩,
  ⟨.XXX, .IMP, 6⟩,
  ⟨.STY, .ZP0, 3⟩,
  ⟨.STA, .ZP0, 3⟩,
  ⟨.STX, .ZP0, 3⟩,
  ⟨.XXX, .IMP, 3⟩,
  ⟨.DEY, .IMP, 2⟩,
  ⟨.NOP, .IMP, 2⟩,
  ⟨.TXA, .IMP, 2⟩,
  ⟨.XXX, .IMP, 2⟩,
  ⟨.STY, .ABS, 4⟩,
  ⟨.STA, .ABS, 4⟩,
  ⟨.STX, .ABS, 4⟩,
  ⟨.XXX, .IMP, 4⟩,
  ⟨.BCC, .REL, 2⟩,
  ⟨.STA, .IZY, 6⟩,
  ⟨.XXX, .IMP, 2⟩,
  ⟨.XXX, .IMP, 6⟩,
  ⟨.STY, .ZPX, 4⟩,
  ⟨.STA, .ZPX, 4⟩,
  ⟨.STX, .ZPY, 4⟩,
  ⟨.XXX, .IMP, 4⟩,
  ⟨.TYA, .IMP, 2⟩,
  ⟨.STA, .ABY, 5⟩,
  ⟨.TXS, .IMP, 2⟩,
  ⟨.XXX, .IMP, 5⟩,
  ⟨.NOP, .IMP, 5⟩,
  ⟨.STA, .ABX, 5⟩,
  ⟨.XXX, .IMP, 5⟩,
  ⟨.XXX, .IMP, 5⟩
]

/-- Opcode-table rows 0xA0..0xBF of `INSTRUCTION_MAP` from
`src/cpu/instructions.rs`. -/
def INSTRUCTION_MAP_5 : List Instruction := [
  ⟨.LDY, .IMM, 2⟩,
  ⟨.LDA, .IZX, 6⟩,
  ⟨.LDX, .IMM, 2⟩,
  ⟨.XXX, .IMP, 6⟩,
  ⟨.LDY, .ZP0, 3⟩,
  ⟨.LDA, .ZP0, 3⟩,
  ⟨.LDX, .ZP0, 3⟩,
  ⟨.XXX, .IMP, 3⟩,
  ⟨.TAY, .IMP, 2⟩,
  ⟨.LDA, .IMM, 2⟩,
  ⟨.TAX, .IMP, 2⟩,
  ⟨.XXX, .IMP, 2⟩,
  ⟨.LDY, .ABS, 4⟩,
  ⟨.LDA, .ABS, 4⟩,
  ⟨.LDX, .ABS, 4⟩,
  ⟨.XXX, .IMP, 4⟩,
  ⟨.BCS, .REL, 2⟩,
  ⟨.LDA, .IZY, 5⟩,
  ⟨.XXX, .IMP, 2⟩,
  ⟨.XXX, .IMP, 5⟩,
  ⟨.LDY, .ZPX, 4⟩,
  ⟨.LDA, .ZPX, 4⟩,
  ⟨.LDX, .ZPY, 4⟩,
  ⟨.XXX, .IMP, 4⟩,
  ⟨.CLV, .IMP, 2⟩,
  ⟨.LDA, .ABY, 4⟩,
  ⟨.TSX, .IMP, 2⟩,
  ⟨.XXX, .IMP, 4⟩,
  ⟨.LDY, .ABX, 4⟩,
  ⟨.LDA, .ABX, 4⟩,
  ⟨.LDX, .ABY, 4⟩,
  ⟨.XXX, .IMP, 4⟩
]

/-- Opcode-table rows 0xC0..0xDF of `INSTRUCTION_MAP` from
`src/cpu/instructions.rs`. -/
def INSTRUCTION_MAP_6 : List Instruction := [
  ⟨.CPY, .IMM, 2⟩,
  ⟨.CMP, .IZX, 6⟩,
  ⟨.NOP, .IMP, 2⟩,
  ⟨.XXX, .IMP, 8⟩,
  ⟨.CPY, .ZP0, 3⟩,
  ⟨.CMP, .ZP0, 3⟩,
  ⟨.DEC, .ZP0, 5⟩,
  ⟨.XXX, .IMP, 5⟩,
  ⟨.INY, .IMP, 2⟩,
  ⟨.CMP, .IMM, 2⟩,
  ⟨.DEX, .IMP, 2⟩,
  ⟨.XXX, .IMP, 2⟩,
  ⟨.CPY, .ABS, 4⟩,
  ⟨.CMP, .ABS, 4⟩,
  ⟨.DEC, .ABS, 6⟩,
  ⟨.XXX, .IMP, 6⟩,
  ⟨.BNE, .REL, 2⟩,
  ⟨.CMP, .IZY, 5⟩,
  ⟨.XXX, .IMP, 2⟩,
  ⟨.XXX, .IMP, 8⟩,
  ⟨.NOP, .IMP, 4⟩,
  ⟨.CMP, .ZPX, 4⟩,
  ⟨.DEC, .ZPX, 6⟩,
  ⟨.XXX, .IMP, 6⟩,
  ⟨.CLD, .IMP, 2⟩,
  ⟨.CMP, .ABY, 4⟩,
  ⟨.NOP, .IMP, 2⟩,
  ⟨.XXX, .IMP, 7⟩,
  ⟨.NOP, .IMP, 4⟩,
  ⟨.CMP, .ABX, 4⟩,
  ⟨.DEC, .ABX, 7⟩,
  ⟨.XXX, .IMP, 7⟩
]

/-- Opcode-table rows 0xE0..0xFF of `INSTRUCTION_MAP` from
`src/cpu/instructions.rs`. -/
def INSTRUCTION_MAP_7 : List Instruction := [
  ⟨.CPX, .IMM, 2⟩,
  ⟨.SBC, .IZX, 6⟩,
  ⟨.NOP, .IMP, 2⟩,
  ⟨.XXX, .IMP, 8⟩,
  ⟨.CPX, .ZP0, 3⟩,
  ⟨.SBC, .ZP0, 3⟩,
  ⟨.INC, .ZP0, 5⟩,
  ⟨.XXX, .IMP, 5⟩,
  ⟨.INX, .IMP, 2⟩,
  ⟨.SBC, .IMM, 2⟩,
  ⟨.NOP, .IMP, 2⟩,
  ⟨.SBC, .IMP, 2⟩,
  ⟨.CPX, .ABS, 4⟩,
  ⟨.SBC, .ABS, 4⟩,
  ⟨.INC, .ABS, 6⟩,
  ⟨.XXX, .IMP, 6⟩,
  ⟨.BEQ, .REL, 2⟩,
  ⟨.SBC, .IZY, 5⟩,
  ⟨.XXX, .IMP, 2⟩,
  ⟨.XXX, .IMP, 8⟩,
  ⟨.NOP, .IMP, 4⟩,
  ⟨.SBC, .ZPX, 4⟩,
  ⟨.INC, .ZPX, 6⟩,
  ⟨.XXX, .IMP, 6⟩,
  ⟨.SED, .IMP, 2⟩,
  ⟨.SBC, .ABY, 4⟩,
  ⟨.NOP, .IMP, 2⟩,
  ⟨.XXX, .IMP, 7⟩,
  ⟨.NOP, .IMP, 4⟩,
  ⟨.SBC, .ABX, 4⟩,
  ⟨.INC, .ABX, 7⟩,
  ⟨.XXX, .IMP, 7⟩
]

/-- The full 256-entry opcode table `INSTRUCTION_MAP` from
`src/cpu/instructions.rs` (mnemonic, addressing mode, base cycle count),
transcribed row for row in 32-entry blocks. -/
def INSTRUCTION_MAP : List Instruction :=
  INSTRUCTION_MAP_0 ++ INSTRUCTION_MAP_1 ++ INSTRUCTION_MAP_2 ++ INSTRUCTION_MAP_3 ++
  INSTRUCTION_MAP_4 ++ INSTRUCTION_MAP_5 ++ INSTRUCTION_MAP_6 ++ INSTRUCTION_MAP_7

/-- The decode lookup `INSTRUCTION_MAP[opcode as usize]`.  The opcode is a
byte, so the index is always in range and the `getD` default is unreachable. -/
def Instruction.decode (opcode : Nat) : Instruction :=
  INSTRUCTION_MAP.getD (opcode % 256) ⟨.XXX, .IMP, 2⟩

/-- The `CPU::reset` boot sequence from `src/cpu/mod.rs`. -/
def CPU.reset (c : CPU) : CPU :=
  let c := { c with a := 0, x := 0, y := 0 }
  let c := { c with sp := 0xFD, status := StatusFlags.U }
  let lo := c.read PC_POINTER
  let hi := c.read (PC_POINTER + 1)
  let c := { c with pc := u16_from_le_bytes lo hi }
  { c with addr_rel := 0, addr_abs := 0, fetched := 0, cycles_remaining := 8 }

/-- The `CPU::irq` interrupt sequence from `src/cpu/mod.rs`.  The two
`self.sp -= ...` statements are unchecked `u8` subtractions, hence the
`Option`; when the I flag is set the request is ignored. -/
def CPU.irq (c : CPU) : Option CPU :=
  if !(flag_contains c.status StatusFlags.I) then do
    let c := c.write (STACK_BASE + c.sp) ((c.pc >>> 8) &&& 0x00FF)
    let c := c.write (STACK_BASE + c.sp - 1) (c.pc &&& 0x00FF)
    let sp ← checked_sub8 c.sp 2
    let c := { c with sp := sp }
    let c := { c with status := flag_set c.status StatusFlags.B False }
    let c := { c with status := flag_set c.status StatusFlags.U True }
    let c := { c with status := flag_set c.status StatusFlags.I True }
    let c := c.write (STACK_BASE + c.sp) c.status
    let sp ← checked_sub8 c.sp 1
    let c := { c with sp := sp }
    let lo := c.read IRQ_POINTER
    let hi := c.read (IRQ_POINTER + 1)
    some { c with pc := u16_from_be_bytes lo hi, cycles_remaining := 7 }
  else
    some c

/-- The `CPU::nmi` sequence from `src/cpu/mod.rs`: as `irq` but unconditional,
vector at `NMI_POINTER`, eight cycles. -/
def CPU.nmi (c : CPU) : Option CPU := do
  let c := c.write (STACK_BASE + c.sp) ((c.pc >>> 8) &&& 0x00FF)
  let c := c.write (STACK_BASE + c.sp - 1) (c.pc &&& 0x00FF)
  let sp ← checked_sub8 c.sp 2
  let c := { c with sp := sp }
  let c := { c with status := flag_set c.status StatusFlags.B False }
  let c := { c with status := flag_set c.status StatusFlags.U True }
  let c := { c with status := flag_set c.status StatusFlags.I True }
  let c := c.write (STACK_BASE + c.sp) c.status
  let sp ← checked_sub8 c.sp 1
  let c := { c with sp := sp }
  let lo := c.read NMI_POINTER
  let hi := c.read (NMI_POINTER + 1)
  some { c with pc := u16_from_be_bytes lo hi, cycles_remaining := 8 }

/-- The operand helper `CPU::fetch`: outside implied addressing it loads
`fetched` from `addr_abs`; it returns the (possibly updated) `fetched` byte. -/
def CPU.fetch (c : CPU) : CPU × Nat :=
  let instr := Instruction.decode c.opcode
  if instr.mode ≠ AddressingMode.IMP then
    let c := { c with fetched := c.read c.addr_abs }
    (c, c.fetched)
  else
    (c, c.fetched)

/-! Addressing-mode procedures from `src/cpu/cpu_addr.rs` that the claims
refer to.  Each returns the new state and the extra-cycle hint. -/

/-- Zero-page addressing with X offset; `cpu.read(cpu.pc) + cpu.x` is an
unchecked `u8` addition. -/
def zpx (c : CPU) : Option (CPU × Nat) := do
  let s ← checked_add8 (c.read c.pc) c.x
  let c := { c with addr_abs := s }
  let c := { c with addr_abs := c.addr_abs &&& 0x00FF }
  let c := { c with pc := wrapping_add16 c.pc 1 }
  some (c, 0)

/-- Absolute addressing with X offset; `cpu.addr_abs + cpu.x as u16` is an
unchecked `u16` addition. -/
def abx (c : CPU) : Option (CPU × Nat) := do
  let lo := c.read c.pc
  let hi := c.read (wrapping_add16 c.pc 1)
  let c := { c with pc := wrapping_add16 c.pc 2 }
  let c := { c with addr_abs := u16_from_le_bytes lo hi }
  let s ← checked_add16 c.addr_abs c.x
  let c := { c with addr_abs := s }
  if (c.addr_abs &&& 0xFF00) ≠ (hi <<< 8) then some (c, 1) else some (c, 0)

/-- Indirect addressing; `ptr + 1` is an unchecked `u16` addition.  When the
pointer low byte is `0xFF` the source takes the first branch. -/
def ind (c : CPU) : Option (CPU × Nat) := do
  let ptr_lo := c.read c.pc
  let ptr_hi := c.read (wrapping_add16 c.pc 1)
  let ptr := u16_from_le_bytes ptr_lo ptr_hi
  let c := { c with pc := wrapping_add16 c.pc 2 }
  if ptr_lo = 0x00FF then do
    let p1 ← checked_add16 ptr 1
    some ({ c with addr_abs := u16_from_le_bytes (c.read (ptr &&& 0xFF00)) (c.read p1) }, 0)
  else do
    let p1 ← checked_add16 ptr 1
    some ({ c with addr_abs := u16_from_le_bytes (c.read ptr) (c.read p1) }, 0)

/-! Instruction handlers from `src/cpu/cpu_instr.rs` that the claims refer
to.  `adc`, `sbc`, `cmp`, `cpx` and `cpy` each start with `cpu.fetch()`; the
`...With` form is the remainder of the handler body applied to the byte that
`fetch` returned, and the handler proper composes the two. -/

/-- Body of `adc` after `let fetched: u16 = cpu.fetch().into()`. -/
def adcWith (c : CPU) (f : Nat) : CPU × Nat :=
  let fetched := f
  let result := fetched + c.a + (if flag_contains c.status StatusFlags.C then 1 else 0)
  let v := ((c.a ^^^ fetched) ^^^ 65535) &&& (c.a ^^^ result) &&& 0x0080
  let c := { c with status := flag_set c.status StatusFlags.C (result > 255) }
  let c := { c with status := flag_set c.status StatusFlags.Z (result &&& 0x00FF = 0) }
  let c := { c with status := flag_set c.status StatusFlags.N (result &&& 0x80 ≠ 0) }
  let c := { c with status := flag_set c.status StatusFlags.V (v ≠ 0) }
  let c := { c with a := result &&& 0x00FF }
  (c, 1)

/-- The `adc` handler. -/
def adc (c : CPU) : CPU × Nat :=
  let p := c.fetch
  adcWith p.1 p.2

/-- Body of `sbc` after `let fetched: u16 = (cpu.fetch() as u16) ^ 0x00FF`. -/
def sbcWith (c : CPU) (f : Nat) : CPU × Nat :=
  let fetched := f ^^^ 0x00FF
  let result := fetched + c.a + (if flag_contains c.status StatusFlags.C then 1 else 0)
  let v := ((c.a ^^^ fetched) ^^^ 65535) &&& (c.a ^^^ result) &&& 0x0080
  let c := { c with status := flag_set c.status StatusFlags.C (result > 255) }
  let c := { c with status := flag_set c.status StatusFlags.Z (result &&& 0x00FF = 0) }
  let c := { c with status := flag_set c.status StatusFlags.N (result &&& 0x80 ≠ 0) }
  let c := { c with status := flag_set c.status StatusFlags.V (v ≠ 0) }
  let c := { c with a := result &&& 0x00FF }
  (c, 1)

/-- The `sbc` handler. -/
def sbc (c : CPU) : CPU × Nat :=
  let p := c.fetch
  sbcWith p.1 p.2

/-- Body of `cmp` after `let fetched = cpu.fetch()`: the carry test reads the
accumulator, as the source does. -/
def cmpWith (c : CPU) (fetched : Nat) : CPU × Nat :=
  let compared := wrapping_sub16 c.a fetched
  let c := { c with status := flag_set c.status StatusFlags.C (c.a ≥ fetched) }
  let c := { c with status := flag_set c.status StatusFlags.N (compared &&& 0x0080 ≠ 0) }
  let c := { c with status := flag_set c.status StatusFlags.Z (compared &&& 0x00FF = 0) }
  (c, 1)

/-- The `cmp` handler. -/
def cmp (c : CPU) : CPU × Nat :=
  let p := c.fetch
  cmpWith p.1 p.2

/-- Body of `cpx` after `let fetched = cpu.fetch()`: the difference uses the
X register but the carry test reads `cpu.a`, exactly as the source does. -/
def cpxWith (c : CPU) (fetched : Nat) : CPU × Nat :=
  let compared := wrapping_sub16 c.x fetched
  let c := { c with status := flag_set c.status StatusFlags.C (c.a ≥ fetched) }
  let c := { c with status := flag_set c.status StatusFlags.N (compared &&& 0x0080 ≠ 0) }
  let c := { c with status := flag_set c.status StatusFlags.Z (compared &&& 0x00FF = 0) }
  (c, 0)

/-- The `cpx` handler. -/
def cpx (c : CPU) : CPU × Nat :=
  let p := c.fetch
  cpxWith p.1 p.2

/-- Body of `cpy` after `let fetched = cpu.fetch()`: the difference uses the
Y register but the carry test reads `cpu.a`, exactly as the source does. -/
def cpyWith (c : CPU) (fetched : Nat) : CPU × Nat :=
  let compared := wrapping_sub16 c.y fetched
  let c := { c with status := flag_set c.status StatusFlags.C (c.a ≥ fetched) }
  let c := { c with status := flag_set c.status StatusFlags.N (compared &&& 0x0080 ≠ 0) }
  let c := { c with status := flag_set c.status StatusFlags.Z (compared &&& 0x00FF = 0) }
  (c, 0)

/-- The `cpy` handler. -/
def cpy (c : CPU) : CPU × Nat :=
  let p := c.fetch
  cpyWith p.1 p.2

/-- The `dex` handler: the source computes `cpu.x.wrapping_sub(cpu.x)`. -/
def dex (c : CPU) : CPU × Nat :=
  let c := { c with x := wrapping_sub8 c.x c.x }
  let c := { c with status := flag_set c.status StatusFlags.N (c.x &&& 0x0080 ≠ 0) }
  let c := { c with status := flag_set c.status StatusFlags.Z (c.x = 0) }
  (c, 0)

/-- The `dey` handler: the source computes `cpu.y.wrapping_sub(cpu.y)`. -/
def dey (c : CPU) : CPU × Nat :=
  let c := { c with y := wrapping_sub8 c.y c.y }
  let c := { c with status := flag_set c.status StatusFlags.N (c.y &&& 0x0080 ≠ 0) }
  let c := { c with status := flag_set c.status StatusFlags.Z (c.y = 0) }
  (c, 0)

/-- The `sta` handler: the source body is just `0`. -/
def sta (c : CPU) : CPU × Nat := (c, 0)

/-- The `stx` handler: the source body is just `0`. -/
def stx (c : CPU) : CPU × Nat := (c, 0)

/-- The `sty` handler: the source body is just `0`. -/
def sty (c : CPU) : CPU × Nat := (c, 0)

/-- The `plp` handler: pop the status byte, then force the U flag on. -/
def plp (c : CPU) : CPU × Nat :=
  let c := { c with sp := wrapping_add8 c.sp 1 }
  let c := { c with status := c.read (STACK_BASE + c.sp) }
  let c := { c with status := flag_set c.status StatusFlags.U True }
  (c, 0)

/-- The `rti` handler: restore the status byte forcing B and U off, then the
program counter; `cpu.sp += ...` are unchecked `u8` additions.  The
`StatusFlags::from_bits(..).unwrap()` in the source always succeeds because
all eight bits are defined flags, so it is the plain byte assignment here. -/
def rti (c : CPU) : Option (CPU × Nat) := do
  let status_bits := c.read (STACK_BASE + c.sp + 1)
  let c := { c with status := status_bits }
  let c := { c with status := flag_set c.status StatusFlags.B False }
  let c := { c with status := flag_set c.status StatusFlags.U False }
  let sp ← checked_add8 c.sp 1
  let c := { c with sp := sp }
  let hi := c.read (STACK_BASE + c.sp + 1)
  let lo := c.read (STACK_BASE + c.sp + 2)
  let c := { c with pc := u16_from_be_bytes lo hi }
  let sp ← checked_add8 c.sp 2
  let c := { c with sp := sp }
  some (c, 0)

/-- The private `branch` helper: `cpu.cycles_remaining += 1` is an unchecked
`u8` addition and `cpu.pc + cpu.addr_rel` an unchecked `u16` addition. -/
def branch (c : CPU) : Option CPU := do
  let cr ← checked_add8 c.cycles_remaining 1
  let c := { c with cycles_remaining := cr }
  let s ← checked_add16 c.pc c.addr_rel
  let c := { c with addr_abs := s }
  let c ←
    if (c.addr_abs &&& 0xFF00) ≠ (c.pc &&& 0xFF00) then do
      let cr ← checked_add8 c.cycles_remaining 1
      some { c with cycles_remaining := cr }
    else
      some c
  some { c with pc := c.addr_abs }


/-! Concrete states used to evaluate the code on specific inputs. -/

/-- Memory for the JMP-indirect scenario: operand bytes `FF 02` at
`0x8001/0x8002` (pointer `0x02FF`), target low byte `0x00` at `0x02FF`,
`0x40` at `0x0300`, `0x80` at `0x0200`. -/
def c2bus : Bus :=
  (((Bus.new.write 0x8001 0xFF).write 0x8002 0x02).write 0x0300 0x40).write 0x0200 0x80

/-- State about to run the indirect addressing mode on pointer `0x02FF`. -/
def c2state : CPU := { CPU.new with pc := 0x8001, bus := c2bus }

/-- Memory holding `12 34` at both the IRQ vector `0xFFFE/F` and the NMI
vector `0xFFFA/B`. -/
def c3bus : Bus :=
  (((Bus.new.write 0xFFFE 0x12).write 0xFFFF 0x34).write 0xFFFA 0x12).write 0xFFFB 0x34

/-- State with the I flag clear and a valid stack pointer, ready for an
interrupt. -/
def c3state : CPU := { CPU.new with pc := 0xABCD, sp := 0xFD, bus := c3bus }

/-- State about to execute CPX immediate (opcode `0xE0`) with X = 5, A = 0
and operand byte 3 at the effective address. -/
def c6xstate : CPU :=
  { CPU.new with opcode := 0xE0, addr_abs := 0x9000, x := 5, bus := Bus.new.write 0x9000 3 }

/-- State about to execute CPY immediate (opcode `0xC0`) with Y = 5, A = 0
and operand byte 3 at the effective address. -/
def c6ystate : CPU :=
  { CPU.new with opcode := 0xC0, addr_abs := 0x9000, y := 5, bus := Bus.new.write 0x9000 3 }

/-- State for RTI: the status byte on the stack (at `0x01FB`, one above
SP = `0xFA`) has every flag set, including U. -/
def c9state : CPU := { CPU.new with sp := 0xFA, bus := Bus.new.write 0x01FB 0xFF }

/-- State for PLP: the stack byte at `0x01FB` is zero, so any U bit in the
result was forced on by the handler. -/
def c9pstate : CPU := { CPU.new with sp := 0xFA }

/-- State making `cpu.read(cpu.pc) + cpu.x` overflow `u8` in `zpx`:
the operand byte is `0xFF` and X is 1. -/
def c8zpxstate : CPU := { CPU.new with x := 1, bus := Bus.new.write 0x0000 0xFF }

/-- State making `cpu.pc + cpu.addr_rel` overflow `u16` in `branch`:
a backward branch (offset `-0x80` sign-extended to `0xFF80`) from `0x8000`. -/
def c8branchstate : CPU := { CPU.new with pc := 0x8000, addr_rel := 0xFF80 }

/-- State making `self.sp -= 2` underflow `u8` in `irq`: SP = 0 with the
I flag clear. -/
def c8irqstate : CPU := { CPU.new with sp := 0 }

/-! Claim theorems. -/

/-- C1: the claim says the STA/STX/STY handlers write the named register to
memory at `addr_abs`, return hint 0 and change nothing else.  In the source
all three handlers are no-op stubs: they return hint 0 and leave the whole
state unchanged, so no store ever happens — the byte at `addr_abs` keeps its
old value (here 0, not the 0x42 held in the accumulator). -/
theorem c1_store_handlers_write_nothing :
    (∀ c : CPU, sta c = (c, 0) ∧ stx c = (c, 0) ∧ sty c = (c, 0)) ∧
    (sta { CPU.new with a := 0x42, addr_abs := 0x0200 }).1.read 0x0200 = 0 ∧
    (sta { CPU.new with a := 0x42, addr_abs := 0x0200 }).1.a = 0x42 :=
  ⟨fun _ => ⟨rfl, rfl, rfl⟩, rfl, rfl⟩

/-- C2: the claim says JMP-indirect with pointer low byte `0xFF` takes the
target low byte from the pointer itself and the high byte from
`pointer & 0xFF00`, which on this memory yields `0x8000`.  The source's bug
branch instead builds `from_le_bytes [read(ptr & 0xFF00), read(ptr + 1)]`,
taking the LOW byte from `ptr & 0xFF00` and the HIGH byte from `ptr + 1`,
yielding `0x4080`. -/
theorem c2_jmp_indirect_bug_branch_swapped :
    ((ind c2state).map fun p => p.1.addr_abs) = some 0x4080 ∧
    u16_from_le_bytes (c2state.read 0x02FF) (c2state.read 0x0200) = 0x8000 ∧
    (0x4080 : Nat) ≠ 0x8000 := by
  refine ⟨?_, ?_, ?_⟩ <;> decide

/-- C3: the claim says IRQ (I clear) and NMI load PC as the little-endian
word at their vectors (low byte first), which here would be `0x3412`.  The
source assembles the vector with `u16::from_be_bytes([lo, hi])`, producing
`0x1234` in both sequences; the cycle counts 7 and 8 do match the claim. -/
theorem c3_interrupt_vectors_read_big_endian :
    ((CPU.irq c3state).map fun c => (c.pc, c.cycles_remaining)) = some (0x1234, 7) ∧
    ((CPU.nmi c3state).map fun c => (c.pc, c.cycles_remaining)) = some (0x1234, 8) ∧
    u16_from_le_bytes (c3state.read IRQ_POINTER) (c3state.read (IRQ_POINTER + 1)) = 0x3412 ∧
    (0x1234 : Nat) ≠ 0x3412 := by
  refine ⟨?_, ?_, ?_, ?_⟩ <;> decide

/-- C4: after `reset()` the registers are cleared, SP is `0xFD`, the status
byte is exactly the U flag, PC is the little-endian word at `0xFFFC/0xFFFD`,
the scratch fields are zero and eight cycles are charged — for every
starting state. -/
theorem c4_reset_boot_state (c : CPU) :
    (c.reset).a = 0 ∧ (c.reset).x = 0 ∧ (c.reset).y = 0 ∧
    (c.reset).sp = 0xFD ∧ (c.reset).status = StatusFlags.U ∧
    (c.reset).pc = c.read 0xFFFC + 256 * c.read 0xFFFD ∧
    (c.reset).addr_rel = 0 ∧ (c.reset).addr_abs = 0 ∧
    (c.reset).fetched = 0 ∧ (c.reset).cycles_remaining = 8 := by
  refine ⟨rfl, rfl, rfl, rfl, rfl, ?_, rfl, rfl, rfl, rfl⟩
  show u16_from_le_bytes (c.read PC_POINTER) (c.read (PC_POINTER + 1)) =
    c.read 0xFFFC + 256 * c.read 0xFFFD
  simp [u16_from_le_bytes, CPU.read, Bus.read, PC_POINTER]

/-- C5: executing the SBC handler on a fetched operand `x` is the very same
state transformation and extra-cycle hint as executing the ADC handler on
the operand `x ^^^ 0xFF`, for every starting state — accumulator, all four
flags C, Z, N, V, and the hint included. -/
theorem c5_sbc_is_adc_of_inverted_operand (c : CPU) (x : Nat) :
    sbcWith c x = adcWith c (x ^^^ 0x00FF) := rfl

/-- C6: the claim says CPX sets carry iff X ≥ operand and CPY iff
Y ≥ operand.  With X = 5 (resp. Y = 5), A = 0 and operand 3 the claim
demands carry set, but the source's carry test reads the accumulator
(`cpu.a >= fetched`), so the executed handlers leave carry clear. -/
theorem c6_cpx_cpy_carry_uses_accumulator :
    (cpx c6xstate).1.status &&& StatusFlags.C = 0 ∧
    (cpy c6ystate).1.status &&& StatusFlags.C = 0 ∧
    c6xstate.x = 5 ∧ c6ystate.y = 5 ∧ c6xstate.a = 0 ∧
    c6xstate.read c6xstate.addr_abs = 3 := by
  refine ⟨?_, ?_, rfl, rfl, rfl, ?_⟩ <;> decide

/-- C7: the claim says DEX/DEY decrement the register by 1 modulo 256.  The
source computes `cpu.x.wrapping_sub(cpu.x)` (resp. `cpu.y.wrapping_sub(cpu.y)`),
so both registers are set to zero from every starting value; with X = 5 the
result is 0, not the 4 the claim demands. -/
theorem c7_dex_dey_always_zero :
    (∀ c : CPU, (dex c).1.x = 0 ∧ (dey c).1.y = 0) ∧
    (dex { CPU.new with x := 5 }).1.x = 0 ∧
    (dey { CPU.new with y := 5 }).1.y = 0 := by
  refine ⟨fun c => ⟨?_, ?_⟩, rfl, rfl⟩
  · show wrapping_sub8 c.x c.x = 0
    simp only [wrapping_sub8]
    omega
  · show wrapping_sub8 c.y c.y = 0
    simp only [wrapping_sub8]
    omega

/-- C8: the claim says address computation and stack-pointer adjustment
always wrap and never fail.  The source uses unchecked `u8`/`u16` arithmetic
in `zpx` (`cpu.read(cpu.pc) + cpu.x`), `branch` (`cpu.pc + cpu.addr_rel`)
and `irq` (`self.sp -= 2`), each of which overflows — the modelled panic
branch (`none`) — on the states below. -/
theorem c8_address_and_stack_ops_can_panic :
    zpx c8zpxstate = none ∧
    branch c8branchstate = none ∧
    CPU.irq c8irqstate = none := by
  refine ⟨?_, ?_, ?_⟩ <;> rfl

/-- C9: the claim says the U flag reads as 1 after every operation that
reloads P from the stack, PLP and RTI in particular.  The source's `plp`
does force U on, but `rti` forces U OFF: starting from a stack status byte
with U set, the executed RTI leaves the U bit clear. -/
theorem c9_rti_clears_unused_flag :
    ((rti c9state).map fun p => p.1.status &&& StatusFlags.U) = some 0 ∧
    (plp c9pstate).1.status &&& StatusFlags.U = StatusFlags.U := by
  refine ⟨?_, ?_⟩ <;> decide

/-- C10: `reset()` never writes to the bus — it only reads the reset vector
— so after a reset every memory cell reads back exactly its old value, for
every starting state and every address. -/
theorem c10_reset_leaves_memory_unchanged (c : CPU) (a : Nat) :
    (c.reset).bus = c.bus ∧ (c.reset).read a = c.read a :=
  ⟨rfl, rfl⟩

end Powerglove
